import Mathlib

/-!
Verification development for the key-vault remote signing plugin.

The Go sources are embedded shallowly: bytes are `List Nat` (each entry a
byte value), machine integers are `Nat`, fallible functions return
`Option` or `Except`, and the HTTP transport is an explicit function
argument `daemon : HttpRequest → HttpResponse` together with the list of
requests actually sent, so that "no network call" is a provable statement.
-/

set_option autoImplicit false
set_option linter.unusedVariables false

/-! ## Hex encoding and decoding (Go `encoding/hex`) -/

/-- Value of one hex digit, as in Go `encoding/hex` (accepts both cases). -/
def hexDigitVal (c : Char) : Option Nat :=
  if '0' ≤ c ∧ c ≤ '9' then some (c.toNat - '0'.toNat)
  else if 'a' ≤ c ∧ c ≤ 'f' then some (c.toNat - 'a'.toNat + 10)
  else if 'A' ≤ c ∧ c ≤ 'F' then some (c.toNat - 'A'.toNat + 10)
  else none

/-- Decode a list of hex characters into bytes; fails on an odd-length
input or a non-hex character, as Go `hex.DecodeString` does. -/
def hexDecodeChars : List Char → Option (List Nat)
  | [] => some []
  | [_] => none
  | hi :: lo :: rest =>
    match hexDigitVal hi, hexDigitVal lo, hexDecodeChars rest with
    | some h, some l, some bs => some ((16 * h + l) :: bs)
    | _, _, _ => none

/-- Go `hex.DecodeString`. -/
def hexDecode (s : String) : Option (List Nat) :=
  hexDecodeChars s.data

/-- Lower-case character of a hex digit value below 16. -/
def hexDigitChar (n : Nat) : Char :=
  if n < 10 then Char.ofNat (48 + n) else Char.ofNat (87 + n)

/-- Encode bytes as lower-case hex characters, two per byte. -/
def hexEncodeChars : List Nat → List Char
  | [] => []
  | b :: rest => hexDigitChar (b / 16 % 16) :: hexDigitChar (b % 16) :: hexEncodeChars rest

/-- Go `hex.EncodeToString`: lower-case, no prefix. -/
def hexEncode (bs : List Nat) : String :=
  ⟨hexEncodeChars bs⟩

/-! ## prysm `bytesutil` and `bls` library helpers used by the sources -/

/-- prysm `bytesutil.ToBytes48`: copy into a zeroed 48-byte array, so a
shorter input is right-padded with zeros and a longer one is truncated. -/
def ToBytes48 (bs : List Nat) : List Nat :=
  bs.take 48 ++ List.replicate (48 - bs.length) 0

/-- prysm `bls.SignatureFromBytes`: requires a 96-byte input. -/
def bls.SignatureFromBytes (bs : List Nat) : Option (List Nat) :=
  if bs.length = 96 then some bs else none

/-! ## Error model (`NewGenericError*`, `NewHTTPRequestError`) -/

/-- Errors produced by the key manager, mirroring the constructors used in
the sources: plain-message errors, wrapping errors with an optional
machine-readable cause, and the HTTP transport error which carries the
endpoint, status code and raw response body. -/
inductive KMError where
  | genericMessage (msg : String)
  | generic (msg : String) (cause : Option KMError)
  | httpRequestError (endpoint : String) (statusCode : Nat) (body : String) (msg : String)
  deriving Repr

/-- Predefined error `ErrUnprotectedSigning` from the sources. -/
def ErrUnprotectedSigning : KMError :=
  .genericMessage "remote HTTP key manager does not support unprotected signing"

/-- Predefined error `ErrNoSuchKey` from the sources. -/
def ErrNoSuchKey : KMError :=
  .genericMessage "no such key"

/-! ## The remote HTTP wallet -/

/-- `VaultRemoteHTTPWallet` from the sources; the `httpClient` and `log`
fields carry no signing-relevant state and are omitted. -/
structure VaultRemoteHTTPWallet where
  remoteAddress : String
  accessToken : String
  originPubKey : String
  pubKey : List Nat
  deriving DecidableEq, Repr

/-- The `remoteOpts` options object: `location`, `accessToken`, `pubKey`,
the three configuration fields read by `NewVaultRemoteHTTPWalletFromOpts`. -/
structure remoteOpts where
  location : String
  accessToken : String
  pubKey : String
  deriving DecidableEq, Repr

/-- `NewVaultRemoteHTTPWalletFromOpts`, starting after the JSON unmarshal
of the input string: required-field validation in source order (location,
then access token, then public key), then hex decoding of the public key.
The help string returned alongside is constant and omitted. -/
def NewVaultRemoteHTTPWalletFromOpts (opts : remoteOpts) :
    Except KMError VaultRemoteHTTPWallet :=
  if opts.location.length = 0 then
    .error (.genericMessage "wallet location is required")
  else if opts.accessToken.length = 0 then
    .error (.genericMessage "wallet access token is required")
  else if opts.pubKey.length = 0 then
    .error (.genericMessage "wallet public key is required")
  else
    match hexDecode opts.pubKey with
    | none =>
      .error (.generic ("failed to hex decode public key " ++ opts.pubKey) none)
    | some decodedPubKey =>
      .ok { remoteAddress := opts.location
            accessToken := opts.accessToken
            originPubKey := opts.pubKey
            pubKey := ToBytes48 decodedPubKey }

/-- `NewVaultRemoteHTTPWallet`: the direct constructor, which only hex
decodes the public key and performs no required-field validation. -/
def NewVaultRemoteHTTPWallet (remoteAddress accessToken pubKey : String) :
    Except KMError VaultRemoteHTTPWallet :=
  match hexDecode pubKey with
  | none =>
    .error (.generic ("failed to hex decode public key " ++ pubKey) none)
  | some decodedPubKey =>
    .ok { remoteAddress := remoteAddress
          accessToken := accessToken
          originPubKey := pubKey
          pubKey := ToBytes48 decodedPubKey }

/-- `VaultRemoteHTTPWallet.Sign`: unconditionally returns
`ErrUnprotectedSigning`. -/
def VaultRemoteHTTPWallet.Sign (km : VaultRemoteHTTPWallet)
    (pubKey : List Nat) (root : List Nat) : Except KMError (List Nat) :=
  .error ErrUnprotectedSigning

/-! ## HTTP transport model -/

/-- A JSON value, rich enough for the flat request bodies the wallet
sends: strings, unsigned numbers, and objects. -/
inductive JsonVal where
  | str (s : String)
  | num (n : Nat)
  | obj (fields : List (String × JsonVal))

/-- An outgoing HTTP request as built by `sendRequest`: method, full URL,
headers in the order they are set, and the JSON body. -/
structure HttpRequest where
  method : String
  url : String
  headers : List (String × String)
  body : JsonVal

/-- The daemon's reply: a status code and the raw response body. -/
structure HttpResponse where
  status : Nat
  body : String

/-- `VaultSignResponse`: the parsed response object, whose data carries a
hex-encoded signature string. -/
structure VaultSignResponse where
  signature : String

/-! ## Signing endpoints

Modelled from the spec: the daemon exposes fixed route patterns for
aggregation, proposal and attestation signing (`endpoint.Build` and the
`backend` route patterns are not among the sources); the concrete path
text is irrelevant to the claims, only that each call uses its own fixed
path. -/

/-- Modelled from the spec: fixed route path for aggregation signing. -/
def signAggregationPath : String := "/accounts/sign-aggregation"

/-- Modelled from the spec: fixed route path for proposal signing. -/
def signProposalPath : String := "/accounts/sign-proposal"

/-- Modelled from the spec: fixed route path for attestation signing. -/
def signAttestationPath : String := "/accounts/sign-attestation"

/-! ## Request shapes and their JSON wire format -/

/-- `VaultSignAggregationRequest` from the sources. -/
structure VaultSignAggregationRequest where
  pubKey : String
  domain : String
  dataToSign : String

/-- `VaultSignProposalRequest` from the sources. -/
structure VaultSignProposalRequest where
  pubKey : String
  domain : String
  slot : Nat
  proposerIndex : Nat
  parentRoot : String
  stateRoot : String
  bodyRoot : String

/-- `VaultSignAttestationRequest` from the sources. -/
structure VaultSignAttestationRequest where
  pubKey : String
  domain : String
  slot : Nat
  committeeIndex : Nat
  beaconBlockRoot : String
  sourceEpoch : Nat
  sourceRoot : String
  targetEpoch : Nat
  targetRoot : String

/-- Modelled from the spec: `json.Marshal` of `VaultSignAggregationRequest`
with the wire field names `pubkey`, `domain`, `dataToSign` (the struct
JSON tags are not among the sources). -/
def encodeAggregationRequest (r : VaultSignAggregationRequest) : JsonVal :=
  .obj [("pubkey", .str r.pubKey), ("domain", .str r.domain),
        ("dataToSign", .str r.dataToSign)]

/-- Modelled from the spec: `json.Marshal` of `VaultSignProposalRequest`
with the wire field names `pubkey`, `domain`, `slot`, `proposerIndex`,
`parentRoot`, `stateRoot`, `bodyRoot`. -/
def encodeProposalRequest (r : VaultSignProposalRequest) : JsonVal :=
  .obj [("pubkey", .str r.pubKey), ("domain", .str r.domain),
        ("slot", .num r.slot), ("proposerIndex", .num r.proposerIndex),
        ("parentRoot", .str r.parentRoot), ("stateRoot", .str r.stateRoot),
        ("bodyRoot", .str r.bodyRoot)]

/-- Modelled from the spec: `json.Marshal` of `VaultSignAttestationRequest`
with the wire field names `pubkey`, `domain`, `slot`, `committeeIndex`,
`beaconBlockRoot`, `sourceEpoch`, `sourceRoot`, `targetEpoch`,
`targetRoot`. -/
def encodeAttestationRequest (r : VaultSignAttestationRequest) : JsonVal :=
  .obj [("pubkey", .str r.pubKey), ("domain", .str r.domain),
        ("slot", .num r.slot), ("committeeIndex", .num r.committeeIndex),
        ("beaconBlockRoot", .str r.beaconBlockRoot),
        ("sourceEpoch", .num r.sourceEpoch),
        ("sourceRoot", .str r.sourceRoot),
        ("targetEpoch", .num r.targetEpoch),
        ("targetRoot", .str r.targetRoot)]

/-! ## `sendRequest` and the signing calls

Each signing function takes the transport as explicit arguments: `daemon`
maps the one request built to the daemon's response, and `parse` stands
for `json.Unmarshal` of a response body into `VaultSignResponse`.  The
first component of the result is the list of HTTP requests actually sent
during the call, in order. -/

/-- The request `sendRequest` builds: POST to `remoteAddress ++ path`
with a bearer-token authorization header and JSON content type. -/
def buildRequest (km : VaultRemoteHTTPWallet) (method path : String)
    (reqBody : JsonVal) : HttpRequest :=
  { method := method
    url := km.remoteAddress ++ path
    headers := [("Authorization", "Bearer " ++ km.accessToken),
                ("Content-Type", "application/json")]
    body := reqBody }

/-- `VaultRemoteHTTPWallet.sendRequest`: build the request, send it once,
require status 200, then decode the response body.  A non-200 status
yields `NewHTTPRequestError(endpoint, statusCode, responseBody, ...)`. -/
def VaultRemoteHTTPWallet.sendRequest (km : VaultRemoteHTTPWallet)
    (daemon : HttpRequest → HttpResponse)
    (parse : String → Option VaultSignResponse)
    (method path : String) (reqBody : JsonVal) :
    List HttpRequest × Except KMError VaultSignResponse :=
  let endpoint := km.remoteAddress ++ path
  let req := buildRequest km method path reqBody
  let resp := daemon req
  if resp.status ≠ 200 then
    ([req], .error (.httpRequestError endpoint resp.status resp.body
      "unexpected status code"))
  else
    match parse resp.body with
    | none => ([req], .error (.generic "failed to decode response body" none))
    | some r => ([req], .ok r)

/-- Decoding of the response shared by the three signing calls: hex decode
the signature field, then interpret it as a BLS signature. -/
def decodeSignResponse (resp : VaultSignResponse) : Except KMError (List Nat) :=
  match hexDecode resp.signature with
  | none => .error (.generic "failed to base64 decode" none)
  | some decodedSignature =>
    match bls.SignatureFromBytes decodedSignature with
    | none => .error (.generic "failed to get BLS signature from bytes" none)
    | some sig => .ok sig

/-- The tail the three signing functions share verbatim in the sources:
a transport failure is wrapped with the given context message, a
successful response goes through signature decoding. -/
def wrapSendResult (msg : String)
    (sr : List HttpRequest × Except KMError VaultSignResponse) :
    List HttpRequest × Except KMError (List Nat) :=
  match sr with
  | (reqs, .error e) => (reqs, .error (.generic msg (some e)))
  | (reqs, .ok resp) => (reqs, decodeSignResponse resp)

/-- `VaultRemoteHTTPWallet.SignGeneric`: identity guard, then one POST of
the aggregation request, then signature decoding. -/
def VaultRemoteHTTPWallet.SignGeneric (km : VaultRemoteHTTPWallet)
    (daemon : HttpRequest → HttpResponse)
    (parse : String → Option VaultSignResponse)
    (pubKey : List Nat) (root : List Nat) (domain : List Nat) :
    List HttpRequest × Except KMError (List Nat) :=
  if pubKey ≠ km.pubKey then
    ([], .error ErrNoSuchKey)
  else
    wrapSendResult "failed to send SignGeneric request to remote vault wallet"
      (km.sendRequest daemon parse "POST" signAggregationPath
        (encodeAggregationRequest
          { pubKey := km.originPubKey
            domain := hexEncode domain
            dataToSign := hexEncode root }))

/-- `BeaconBlockHeader` (ethpb): the fields read by `SignProposal`. -/
structure BeaconBlockHeader where
  slot : Nat
  proposerIndex : Nat
  parentRoot : List Nat
  stateRoot : List Nat
  bodyRoot : List Nat

/-- `VaultRemoteHTTPWallet.SignProposal`: identity guard, then one POST of
the proposal request, then signature decoding.  The transport failure is
wrapped with the message naming SignAttestation, as in the sources. -/
def VaultRemoteHTTPWallet.SignProposal (km : VaultRemoteHTTPWallet)
    (daemon : HttpRequest → HttpResponse)
    (parse : String → Option VaultSignResponse)
    (pubKey : List Nat) (domain : List Nat) (data : BeaconBlockHeader) :
    List HttpRequest × Except KMError (List Nat) :=
  if pubKey ≠ km.pubKey then
    ([], .error ErrNoSuchKey)
  else
    wrapSendResult "failed to send SignAttestation request to remote vault wallet"
      (km.sendRequest daemon parse "POST" signProposalPath
        (encodeProposalRequest
          { pubKey := km.originPubKey
            domain := hexEncode domain
            slot := data.slot
            proposerIndex := data.proposerIndex
            parentRoot := hexEncode data.parentRoot
            stateRoot := hexEncode data.stateRoot
            bodyRoot := hexEncode data.bodyRoot }))

/-- `Checkpoint` (ethpb): an epoch and a root. -/
structure Checkpoint where
  epoch : Nat
  root : List Nat

/-- `AttestationData` (ethpb): the fields read by `SignAttestation`. -/
structure AttestationData where
  slot : Nat
  committeeIndex : Nat
  beaconBlockRoot : List Nat
  source : Checkpoint
  target : Checkpoint

/-- `VaultRemoteHTTPWallet.SignAttestation`: identity guard, then one POST
of the attestation request, then signature decoding. -/
def VaultRemoteHTTPWallet.SignAttestation (km : VaultRemoteHTTPWallet)
    (daemon : HttpRequest → HttpResponse)
    (parse : String → Option VaultSignResponse)
    (pubKey : List Nat) (domain : List Nat) (data : AttestationData) :
    List HttpRequest × Except KMError (List Nat) :=
  if pubKey ≠ km.pubKey then
    ([], .error ErrNoSuchKey)
  else
    wrapSendResult "failed to send SignAttestation request to remote vault wallet"
      (km.sendRequest daemon parse "POST" signAttestationPath
        (encodeAttestationRequest
          { pubKey := km.originPubKey
            domain := hexEncode domain
            slot := data.slot
            committeeIndex := data.committeeIndex
            beaconBlockRoot := hexEncode data.beaconBlockRoot
            sourceEpoch := data.source.epoch
            sourceRoot := hexEncode data.source.root
            targetEpoch := data.target.epoch
            targetRoot := hexEncode data.target.root }))

/-- `VaultRemoteHTTPWallet.FetchValidatingKeys`: the singleton configured
key. -/
def VaultRemoteHTTPWallet.FetchValidatingKeys (km : VaultRemoteHTTPWallet) :
    Except KMError (List (List Nat)) :=
  .ok [km.pubKey]

/-! ## Slashing Protection Engine

Modelled from the spec: the Slashing Protection Engine itself is not among
the sources (only the spec describes it), so its operations are modelled
from the spec text of section 4.1 verbatim: first vote always accepted;
attestation rejected on a double vote (`new.target.epoch <=
stored.target.epoch`) or a surrounding / surrounded vote; on acceptance
the new vote overwrites the stored record; on rejection no state change
occurs and signing is never invoked. -/

/-- Modelled from the spec: the per-key vote record for attestations,
the last accepted source and target epochs. -/
structure VoteRecord where
  sourceEpoch : Nat
  targetEpoch : Nat
  deriving DecidableEq, Repr

/-- Modelled from the spec: `SlashingProtectionState`, a mapping from
public key to its vote record, as an association list. -/
def SlashingState : Type := List (List Nat × VoteRecord)

/-- Look up the stored vote record of a public key. -/
def lookupRecord (st : SlashingState) (pk : List Nat) : Option VoteRecord :=
  match st.find? (fun e => e.1 = pk) with
  | none => none
  | some e => some e.2

/-- Overwrite (or create) the vote record of one public key, leaving all
other keys unchanged. -/
def updateRecord (st : SlashingState) (pk : List Nat) (r : VoteRecord) :
    SlashingState :=
  match st with
  | [] => [(pk, r)]
  | e :: rest =>
    if e.1 = pk then (pk, r) :: rest else e :: updateRecord rest pk r

/-- Modelled from the spec: the validation verdict, `Accept` or
`Reject(reason)`. -/
inductive AttVerdict where
  | Accept
  | Reject (reason : String)
  deriving DecidableEq, Repr

/-- Modelled from the spec: validation of an attestation against the
stored record of its key, in the rule order the spec gives: first vote
accepted; double vote when the target epoch does not strictly increase;
surrounding and surrounded votes rejected. -/
def validateAttestation (stored : Option VoteRecord) (att : AttestationData) :
    AttVerdict :=
  match stored with
  | none => .Accept
  | some r =>
    if att.target.epoch ≤ r.targetEpoch then .Reject "double vote"
    else if att.source.epoch < r.sourceEpoch ∧ r.targetEpoch < att.target.epoch then
      .Reject "surrounding vote"
    else if r.sourceEpoch < att.source.epoch ∧ att.target.epoch < r.targetEpoch then
      .Reject "surrounded vote"
    else .Accept

/-- Modelled from the spec: `ValidateAndRecordAttestation`: on acceptance
the new vote overwrites the stored record, on rejection the state is
returned unchanged. -/
def ValidateAndRecordAttestation (st : SlashingState) (pk : List Nat)
    (att : AttestationData) : AttVerdict × SlashingState :=
  match validateAttestation (lookupRecord st pk) att with
  | .Accept =>
    (.Accept, updateRecord st pk ⟨att.source.epoch, att.target.epoch⟩)
  | .Reject reason => (.Reject reason, st)

/-- Modelled from the spec: the signing gateway step for an attestation:
validate and record, and only on acceptance invoke the signer.  The last
component counts signer invocations during the call. -/
def processAttestation (st : SlashingState) (pk : List Nat)
    (att : AttestationData) : AttVerdict × SlashingState × Nat :=
  match ValidateAndRecordAttestation st pk att with
  | (.Accept, st2) => (.Accept, st2, 1)
  | (.Reject reason, st2) => (.Reject reason, st2, 0)

/-! ## Backend version path (`backend/path_version.go`) -/

/-- A logical request, reduced to the path the handlers may read;
`pathVersion` reads none of it. -/
structure LogicalRequest where
  path : String

/-- A logical response: the response data, a map from string keys to
string values (the version endpoint only ever stores strings). -/
structure LogicalResponse where
  data : List (String × String)
  deriving DecidableEq, Repr

/-- The `backend` struct: the framework plumbing is omitted; `Version` is
the field `pathVersion` reads. -/
structure backend where
  Version : String

/-- `newBackend`: constructs the backend with the given version string. -/
def newBackend (version : String) : backend :=
  { Version := version }

/-- `backend.pathVersion`: responds with the backend's version under the
key `version`, with a nil error. -/
def backend.pathVersion (b : backend) (req : LogicalRequest) :
    Except String LogicalResponse :=
  .ok { data := [("version", b.Version)] }

/-! ## String containment helper (for error-message claims) -/

/-- Whether the second character list occurs at the start of the first. -/
def leadsWith : List Char → List Char → Bool
  | _, [] => true
  | [], _ :: _ => false
  | c :: cs, d :: ds => c == d && leadsWith cs ds

/-- Whether the second character list occurs anywhere inside the first. -/
def hasSubChars : List Char → List Char → Bool
  | [], needle => needle.isEmpty
  | c :: cs, needle => leadsWith (c :: cs) needle || hasSubChars cs needle

/-- Whether an error message mentions the given field name. -/
def errMentions (msg field : String) : Bool :=
  hasSubChars msg.data field.data

/-! ## Helper lemmas about the transport -/

/-- The concrete aggregation request a matching `SignGeneric` call sends. -/
def aggregationRequestOf (km : VaultRemoteHTTPWallet) (root domain : List Nat) :
    HttpRequest :=
  buildRequest km "POST" signAggregationPath
    (encodeAggregationRequest
      { pubKey := km.originPubKey
        domain := hexEncode domain
        dataToSign := hexEncode root })

/-- The concrete proposal request a matching `SignProposal` call sends. -/
def proposalRequestOf (km : VaultRemoteHTTPWallet) (domain : List Nat)
    (data : BeaconBlockHeader) : HttpRequest :=
  buildRequest km "POST" signProposalPath
    (encodeProposalRequest
      { pubKey := km.originPubKey
        domain := hexEncode domain
        slot := data.slot
        proposerIndex := data.proposerIndex
        parentRoot := hexEncode data.parentRoot
        stateRoot := hexEncode data.stateRoot
        bodyRoot := hexEncode data.bodyRoot })

/-- The concrete attestation request a matching `SignAttestation` call
sends. -/
def attestationRequestOf (km : VaultRemoteHTTPWallet) (domain : List Nat)
    (data : AttestationData) : HttpRequest :=
  buildRequest km "POST" signAttestationPath
    (encodeAttestationRequest
      { pubKey := km.originPubKey
        domain := hexEncode domain
        slot := data.slot
        committeeIndex := data.committeeIndex
        beaconBlockRoot := hexEncode data.beaconBlockRoot
        sourceEpoch := data.source.epoch
        sourceRoot := hexEncode data.source.root
        targetEpoch := data.target.epoch
        targetRoot := hexEncode data.target.root })

theorem wrapSendResult_fst (msg : String)
    (sr : List HttpRequest × Except KMError VaultSignResponse) :
    (wrapSendResult msg sr).1 = sr.1 := by
  rcases sr with ⟨reqs, res⟩
  cases res <;> rfl

theorem wrapSendResult_error (msg : String)
    (sr : List HttpRequest × Except KMError VaultSignResponse) (e : KMError)
    (h : sr.2 = .error e) :
    (wrapSendResult msg sr).2 = .error (.generic msg (some e)) := by
  rcases sr with ⟨reqs, res⟩
  cases res with
  | error e2 => cases h; rfl
  | ok resp => exact absurd h (by simp)

theorem wrapSendResult_ok (msg : String)
    (sr : List HttpRequest × Except KMError VaultSignResponse)
    (resp : VaultSignResponse) (h : sr.2 = .ok resp) :
    (wrapSendResult msg sr).2 = decodeSignResponse resp := by
  rcases sr with ⟨reqs, res⟩
  cases res with
  | error e2 => exact absurd h (by simp)
  | ok resp2 => cases h; rfl

theorem sendRequest_fst (km : VaultRemoteHTTPWallet)
    (daemon : HttpRequest → HttpResponse)
    (parse : String → Option VaultSignResponse)
    (method path : String) (reqBody : JsonVal) :
    (km.sendRequest daemon parse method path reqBody).1 =
      [buildRequest km method path reqBody] := by
  unfold VaultRemoteHTTPWallet.sendRequest
  dsimp only
  split
  · rfl
  · split <;> rfl

theorem sendRequest_non200 (km : VaultRemoteHTTPWallet)
    (daemon : HttpRequest → HttpResponse)
    (parse : String → Option VaultSignResponse)
    (method path : String) (reqBody : JsonVal)
    (h : (daemon (buildRequest km method path reqBody)).status ≠ 200) :
    (km.sendRequest daemon parse method path reqBody).2 =
      .error (.httpRequestError (km.remoteAddress ++ path)
        (daemon (buildRequest km method path reqBody)).status
        (daemon (buildRequest km method path reqBody)).body
        "unexpected status code") := by
  unfold VaultRemoteHTTPWallet.sendRequest
  dsimp only
  rw [if_pos h]

theorem sendRequest_ok (km : VaultRemoteHTTPWallet)
    (daemon : HttpRequest → HttpResponse)
    (parse : String → Option VaultSignResponse)
    (method path : String) (reqBody : JsonVal) (resp : VaultSignResponse)
    (h200 : (daemon (buildRequest km method path reqBody)).status = 200)
    (hparse : parse (daemon (buildRequest km method path reqBody)).body = some resp) :
    (km.sendRequest daemon parse method path reqBody).2 = .ok resp := by
  unfold VaultRemoteHTTPWallet.sendRequest
  dsimp only
  rw [if_neg (by simp [h200]), hparse]

/-! ## Claim theorems -/

/-- C1: every call to `SignGeneric`, `SignProposal` or `SignAttestation`
whose target public key differs from the configured key returns the
"no such key" error and sends no HTTP request at all. -/
theorem wrongKey_noSuchKey_and_no_http (km : VaultRemoteHTTPWallet)
    (daemon : HttpRequest → HttpResponse)
    (parse : String → Option VaultSignResponse)
    (pubKey root domain : List Nat) (header : BeaconBlockHeader)
    (att : AttestationData) (h : pubKey ≠ km.pubKey) :
    km.SignGeneric daemon parse pubKey root domain = ([], .error ErrNoSuchKey) ∧
    km.SignProposal daemon parse pubKey domain header = ([], .error ErrNoSuchKey) ∧
    km.SignAttestation daemon parse pubKey domain att = ([], .error ErrNoSuchKey) := by
  refine ⟨?_, ?_, ?_⟩ <;>
    simp [VaultRemoteHTTPWallet.SignGeneric, VaultRemoteHTTPWallet.SignProposal,
      VaultRemoteHTTPWallet.SignAttestation, h]

/-- Witness for C1 at a concrete wallet and mismatching key. -/
theorem wrongKey_noSuchKey_and_no_http_witness :
    ([1] : List Nat) ≠ (VaultRemoteHTTPWallet.mk "addr" "token" "ab" [171]).pubKey ∧
    (VaultRemoteHTTPWallet.mk "addr" "token" "ab" [171]).SignGeneric
      (fun _ => ⟨200, ""⟩) (fun _ => none) [1] [] [] = ([], .error ErrNoSuchKey) ∧
    (VaultRemoteHTTPWallet.mk "addr" "token" "ab" [171]).SignProposal
      (fun _ => ⟨200, ""⟩) (fun _ => none) [1] [] ⟨0, 0, [], [], []⟩ =
      ([], .error ErrNoSuchKey) ∧
    (VaultRemoteHTTPWallet.mk "addr" "token" "ab" [171]).SignAttestation
      (fun _ => ⟨200, ""⟩) (fun _ => none) [1] [] ⟨0, 0, [], ⟨0, []⟩, ⟨0, []⟩⟩ =
      ([], .error ErrNoSuchKey) :=
  ⟨by decide,
   wrongKey_noSuchKey_and_no_http (VaultRemoteHTTPWallet.mk "addr" "token" "ab" [171])
     (fun _ => ⟨200, ""⟩) (fun _ => none) [1] [] [] ⟨0, 0, [], [], []⟩
     ⟨0, 0, [], ⟨0, []⟩, ⟨0, []⟩⟩ (by decide)⟩

/-- C4: `Sign` always returns the unprotected-signing error, for every
public key and root, matching the configured key or not. -/
theorem sign_always_unprotected (km : VaultRemoteHTTPWallet)
    (pubKey root : List Nat) :
    km.Sign pubKey root = .error ErrUnprotectedSigning :=
  rfl

/-- C5: constructing from options with an empty location, access token or
public key fails with the respective validation error, and the checks run
in the order location, access token, public key; the constructor is a pure
function of the options, so no network access is possible. -/
theorem fromOpts_required_fields_in_order (opts : remoteOpts) :
    (opts.location.length = 0 →
      NewVaultRemoteHTTPWalletFromOpts opts =
        .error (.genericMessage "wallet location is required")) ∧
    (opts.location.length ≠ 0 → opts.accessToken.length = 0 →
      NewVaultRemoteHTTPWalletFromOpts opts =
        .error (.genericMessage "wallet access token is required")) ∧
    (opts.location.length ≠ 0 → opts.accessToken.length ≠ 0 →
      opts.pubKey.length = 0 →
      NewVaultRemoteHTTPWalletFromOpts opts =
        .error (.genericMessage "wallet public key is required")) := by
  refine ⟨?_, ?_, ?_⟩
  · intro h1
    simp [NewVaultRemoteHTTPWalletFromOpts, h1]
  · intro h1 h2
    simp [NewVaultRemoteHTTPWalletFromOpts, h1, h2]
  · intro h1 h2 h3
    simp [NewVaultRemoteHTTPWalletFromOpts, h1, h2, h3]

/-- Witness for C5 at each of the three empty-field option objects. -/
theorem fromOpts_required_fields_in_order_witness :
    NewVaultRemoteHTTPWalletFromOpts ⟨"", "", ""⟩ =
      .error (.genericMessage "wallet location is required") ∧
    NewVaultRemoteHTTPWalletFromOpts ⟨"loc", "", ""⟩ =
      .error (.genericMessage "wallet access token is required") ∧
    NewVaultRemoteHTTPWalletFromOpts ⟨"loc", "tok", ""⟩ =
      .error (.genericMessage "wallet public key is required") :=
  ⟨(fromOpts_required_fields_in_order ⟨"", "", ""⟩).1 rfl,
   (fromOpts_required_fields_in_order ⟨"loc", "", ""⟩).2.1 (by decide) rfl,
   (fromOpts_required_fields_in_order ⟨"loc", "tok", ""⟩).2.2 (by decide)
     (by decide) rfl⟩

/-- C9: the direct constructor performs no required-field validation:
with any remote address and access token, empty ones included, it succeeds
exactly when the public key is valid hex, and fails only on a hex decode
failure. -/
theorem newDirect_validates_only_hex (remoteAddress accessToken pubKey : String) :
    (∀ bs : List Nat, hexDecode pubKey = some bs →
      NewVaultRemoteHTTPWallet remoteAddress accessToken pubKey =
        .ok ⟨remoteAddress, accessToken, pubKey, ToBytes48 bs⟩) ∧
    (hexDecode pubKey = none →
      NewVaultRemoteHTTPWallet remoteAddress accessToken pubKey =
        .error (.generic ("failed to hex decode public key " ++ pubKey) none)) := by
  constructor
  · intro bs h
    simp [NewVaultRemoteHTTPWallet, h]
  · intro h
    simp [NewVaultRemoteHTTPWallet, h]

/-- Witness for C9: empty remote address and access token still succeed
with a valid hex key, and an invalid hex key fails. -/
theorem newDirect_validates_only_hex_witness :
    hexDecode "ab" = some [171] ∧
    NewVaultRemoteHTTPWallet "" "" "ab" = .ok ⟨"", "", "ab", ToBytes48 [171]⟩ ∧
    NewVaultRemoteHTTPWallet "" "" "zz" =
      .error (.generic ("failed to hex decode public key " ++ "zz") none) :=
  ⟨by decide,
   (newDirect_validates_only_hex "" "" "ab").1 [171] (by decide),
   (newDirect_validates_only_hex "" "" "zz").2 (by decide)⟩

/-- C10: the version path read handler responds with the constructed
version string under the key `version` and never returns an error. -/
theorem pathVersion_returns_constructed_version (version : String)
    (req : LogicalRequest) :
    (newBackend version).pathVersion req = .ok ⟨[("version", version)]⟩ :=
  rfl

/-- C3 counterexample: `"ab"` is valid hex of length 1, not 48, yet
construction from options succeeds, with the key zero-padded to 48 bytes;
the claimed failure on valid hex of the wrong length does not happen. -/
theorem fromOpts_accepts_short_hex_key :
    hexDecode "ab" = some [171] ∧
    ([171] : List Nat).length ≠ 48 ∧
    NewVaultRemoteHTTPWalletFromOpts ⟨"addr", "token", "ab"⟩ =
      .ok ⟨"addr", "token", "ab", ToBytes48 [171]⟩ := by
  refine ⟨by decide, by decide, ?_⟩
  rfl

/-- C3 amended: with the three option fields nonempty, construction fails
exactly when the public key is not valid hex; any valid hex value of any
length is accepted and stored zero-padded or truncated to 48 bytes. -/
theorem fromOpts_pubKey_hex_is_only_check (opts : remoteOpts)
    (h1 : opts.location.length ≠ 0) (h2 : opts.accessToken.length ≠ 0)
    (h3 : opts.pubKey.length ≠ 0) :
    (∀ bs : List Nat, hexDecode opts.pubKey = some bs →
      NewVaultRemoteHTTPWalletFromOpts opts =
        .ok ⟨opts.location, opts.accessToken, opts.pubKey, ToBytes48 bs⟩) ∧
    (hexDecode opts.pubKey = none →
      NewVaultRemoteHTTPWalletFromOpts opts =
        .error (.generic ("failed to hex decode public key " ++ opts.pubKey) none)) := by
  constructor
  · intro bs h
    simp [NewVaultRemoteHTTPWalletFromOpts, h1, h2, h3, h]
  · intro h
    simp [NewVaultRemoteHTTPWalletFromOpts, h1, h2, h3, h]

/-- Witness for the amended C3 at hex keys of length 1 and an invalid one. -/
theorem fromOpts_pubKey_hex_is_only_check_witness :
    NewVaultRemoteHTTPWalletFromOpts ⟨"addr", "token", "ff"⟩ =
      .ok ⟨"addr", "token", "ff", ToBytes48 [255]⟩ ∧
    NewVaultRemoteHTTPWalletFromOpts ⟨"addr", "token", "xyz"⟩ =
      .error (.generic ("failed to hex decode public key " ++ "xyz") none) :=
  ⟨(fromOpts_pubKey_hex_is_only_check ⟨"addr", "token", "ff"⟩ (by decide)
      (by decide) (by decide)).1 [255] (by decide),
   (fromOpts_pubKey_hex_is_only_check ⟨"addr", "token", "xyz"⟩ (by decide)
      (by decide) (by decide)).2 (by decide)⟩

/-- C2: an attestation whose target epoch is at most the last accepted
target epoch for its key is rejected as a double vote, the protection
state is unchanged, and the signer is invoked zero times (the engine is
modelled from the spec, its code being absent from the sources). -/
theorem attestation_double_vote_rejected_no_state_no_sign
    (st : SlashingState) (pk : List Nat) (att : AttestationData)
    (r : VoteRecord) (hlook : lookupRecord st pk = some r)
    (hle : att.target.epoch ≤ r.targetEpoch) :
    processAttestation st pk att = (.Reject "double vote", st, 0) := by
  simp [processAttestation, ValidateAndRecordAttestation, validateAttestation,
    hlook, hle]

/-- Witness for C2: a key with stored target epoch 5 rejects a new
attestation with target epoch 5, leaving the state as it was. -/
theorem attestation_double_vote_rejected_no_state_no_sign_witness :
    lookupRecord [([1], ⟨2, 5⟩)] [1] = some ⟨2, 5⟩ ∧
    (AttestationData.mk 9 0 [] ⟨3, []⟩ ⟨5, []⟩).target.epoch ≤ (5 : Nat) ∧
    processAttestation [([1], ⟨2, 5⟩)] [1] ⟨9, 0, [], ⟨3, []⟩, ⟨5, []⟩⟩ =
      (.Reject "double vote", [([1], ⟨2, 5⟩)], 0) :=
  ⟨by decide, by decide,
   attestation_double_vote_rejected_no_state_no_sign [([1], ⟨2, 5⟩)] [1]
     ⟨9, 0, [], ⟨3, []⟩, ⟨5, []⟩⟩ ⟨2, 5⟩ (by decide) (by decide)⟩

/-- C6: every signing call that reaches the transport sends exactly one
HTTP request, carrying the bearer-token authorization header and the JSON
content type; a non-200 response yields the wrapped transport error
carrying the status code and the raw response body, with no retry (the
request list stays a singleton). -/
theorem transport_one_request_bearer_json_non200 (km : VaultRemoteHTTPWallet)
    (daemon : HttpRequest → HttpResponse)
    (parse : String → Option VaultSignResponse)
    (root domain : List Nat) (header : BeaconBlockHeader)
    (data : AttestationData) :
    ((km.SignGeneric daemon parse km.pubKey root domain).1 =
        [aggregationRequestOf km root domain] ∧
      (aggregationRequestOf km root domain).headers =
        [("Authorization", "Bearer " ++ km.accessToken),
         ("Content-Type", "application/json")] ∧
      ((daemon (aggregationRequestOf km root domain)).status ≠ 200 →
        (km.SignGeneric daemon parse km.pubKey root domain).2 =
          .error (.generic
            "failed to send SignGeneric request to remote vault wallet"
            (some (.httpRequestError (km.remoteAddress ++ signAggregationPath)
              (daemon (aggregationRequestOf km root domain)).status
              (daemon (aggregationRequestOf km root domain)).body
              "unexpected status code"))))) ∧
    ((km.SignProposal daemon parse km.pubKey domain header).1 =
        [proposalRequestOf km domain header] ∧
      (proposalRequestOf km domain header).headers =
        [("Authorization", "Bearer " ++ km.accessToken),
         ("Content-Type", "application/json")] ∧
      ((daemon (proposalRequestOf km domain header)).status ≠ 200 →
        (km.SignProposal daemon parse km.pubKey domain header).2 =
          .error (.generic
            "failed to send SignAttestation request to remote vault wallet"
            (some (.httpRequestError (km.remoteAddress ++ signProposalPath)
              (daemon (proposalRequestOf km domain header)).status
              (daemon (proposalRequestOf km domain header)).body
              "unexpected status code"))))) ∧
    ((km.SignAttestation daemon parse km.pubKey domain data).1 =
        [attestationRequestOf km domain data] ∧
      (attestationRequestOf km domain data).headers =
        [("Authorization", "Bearer " ++ km.accessToken),
         ("Content-Type", "application/json")] ∧
      ((daemon (attestationRequestOf km domain data)).status ≠ 200 →
        (km.SignAttestation daemon parse km.pubKey domain data).2 =
          .error (.generic
            "failed to send SignAttestation request to remote vault wallet"
            (some (.httpRequestError (km.remoteAddress ++ signAttestationPath)
              (daemon (attestationRequestOf km domain data)).status
              (daemon (attestationRequestOf km domain data)).body
              "unexpected status code"))))) := by
  refine ⟨⟨?_, rfl, ?_⟩, ⟨?_, rfl, ?_⟩, ⟨?_, rfl, ?_⟩⟩
  · unfold VaultRemoteHTTPWallet.SignGeneric
    rw [if_neg (by simp), wrapSendResult_fst, sendRequest_fst]
    rfl
  · intro h
    unfold VaultRemoteHTTPWallet.SignGeneric
    rw [if_neg (by simp)]
    exact wrapSendResult_error _ _ _
      (sendRequest_non200 km daemon parse "POST" signAggregationPath _ h)
  · unfold VaultRemoteHTTPWallet.SignProposal
    rw [if_neg (by simp), wrapSendResult_fst, sendRequest_fst]
    rfl
  · intro h
    unfold VaultRemoteHTTPWallet.SignProposal
    rw [if_neg (by simp)]
    exact wrapSendResult_error _ _ _
      (sendRequest_non200 km daemon parse "POST" signProposalPath _ h)
  · unfold VaultRemoteHTTPWallet.SignAttestation
    rw [if_neg (by simp), wrapSendResult_fst, sendRequest_fst]
    rfl
  · intro h
    unfold VaultRemoteHTTPWallet.SignAttestation
    rw [if_neg (by simp)]
    exact wrapSendResult_error _ _ _
      (sendRequest_non200 km daemon parse "POST" signAttestationPath _ h)

/-- Witness for C6: a daemon answering 500 with body boom makes a matching
`SignGeneric` call fail with the wrapped transport error carrying both. -/
theorem transport_one_request_bearer_json_non200_witness :
    ((VaultRemoteHTTPWallet.mk "addr" "token" "ab" [171]).SignGeneric
        (fun _ => ⟨500, "boom"⟩) (fun _ => none) [171] [] []).2 =
      .error (.generic
        "failed to send SignGeneric request to remote vault wallet"
        (some (.httpRequestError ("addr" ++ signAggregationPath) 500 "boom"
          "unexpected status code"))) :=
  (transport_one_request_bearer_json_non200
      (VaultRemoteHTTPWallet.mk "addr" "token" "ab" [171])
      (fun _ => ⟨500, "boom"⟩) (fun _ => none) [] [] ⟨0, 0, [], [], []⟩
      ⟨0, 0, [], ⟨0, []⟩, ⟨0, []⟩⟩).1.2.2 (by decide)

/-- C7 counterexample: when the daemon's response signature field is not
valid hex, the returned error message is the fixed string "failed to
base64 decode", which does not name the signature field. -/
theorem signature_decode_error_names_no_field :
    ((VaultRemoteHTTPWallet.mk "addr" "token" "ab" [171]).SignGeneric
        (fun _ => ⟨200, "zz"⟩) (fun s => some ⟨s⟩) [171] [] []).2 =
      .error (.generic "failed to base64 decode" none) ∧
    errMentions "failed to base64 decode" "signature" = false := by
  exact ⟨rfl, by decide⟩

/-- C7 amended: the hex decode failure of the response signature yields
the generic message "failed to base64 decode", naming no field; only the
constructors' public-key hex decode failure produces a message naming the
offending field. -/
theorem hexDecode_failure_error_shapes (resp : VaultSignResponse)
    (remoteAddress accessToken pubKey : String)
    (h1 : hexDecode resp.signature = none) (h2 : hexDecode pubKey = none) :
    decodeSignResponse resp = .error (.generic "failed to base64 decode" none) ∧
    errMentions "failed to base64 decode" "signature" = false ∧
    NewVaultRemoteHTTPWallet remoteAddress accessToken pubKey =
      .error (.generic ("failed to hex decode public key " ++ pubKey) none) := by
  refine ⟨?_, by decide, ?_⟩
  · simp [decodeSignResponse, h1]
  · simp [NewVaultRemoteHTTPWallet, h2]

/-- Witness for the amended C7 at the invalid hex string zz. -/
theorem hexDecode_failure_error_shapes_witness :
    decodeSignResponse ⟨"zz"⟩ =
      .error (.generic "failed to base64 decode" none) ∧
    errMentions "failed to base64 decode" "signature" = false ∧
    NewVaultRemoteHTTPWallet "" "" "zz" =
      .error (.generic ("failed to hex decode public key " ++ "zz") none) :=
  hexDecode_failure_error_shapes ⟨"zz"⟩ "" "" "zz" (by decide) (by decide)

/-- C8: a matching `SignAttestation` call sends exactly one request whose
JSON body is the flat object with exactly the fields pubkey, domain, slot,
committeeIndex, beaconBlockRoot, sourceEpoch, sourceRoot, targetEpoch and
targetRoot, filled from the attestation data and the configured key, the
roots and domain hex-encoded. -/
theorem signAttestation_body_exact_fields (km : VaultRemoteHTTPWallet)
    (daemon : HttpRequest → HttpResponse)
    (parse : String → Option VaultSignResponse)
    (pubKey domain : List Nat) (data : AttestationData)
    (h : pubKey = km.pubKey) :
    (km.SignAttestation daemon parse pubKey domain data).1 =
      [attestationRequestOf km domain data] ∧
    (attestationRequestOf km domain data).body =
      .obj [("pubkey", .str km.originPubKey),
            ("domain", .str (hexEncode domain)),
            ("slot", .num data.slot),
            ("committeeIndex", .num data.committeeIndex),
            ("beaconBlockRoot", .str (hexEncode data.beaconBlockRoot)),
            ("sourceEpoch", .num data.source.epoch),
            ("sourceRoot", .str (hexEncode data.source.root)),
            ("targetEpoch", .num data.target.epoch),
            ("targetRoot", .str (hexEncode data.target.root))] := by
  subst h
  constructor
  · unfold VaultRemoteHTTPWallet.SignAttestation
    rw [if_neg (by simp), wrapSendResult_fst, sendRequest_fst]
    rfl
  · rfl

/-- Witness for C8 at a concrete wallet and attestation. -/
theorem signAttestation_body_exact_fields_witness :
    ((VaultRemoteHTTPWallet.mk "addr" "token" "ab" [171]).SignAttestation
        (fun _ => ⟨200, ""⟩) (fun _ => none) [171] [7]
        ⟨1, 2, [3], ⟨4, [5]⟩, ⟨6, [8]⟩⟩).1 =
      [attestationRequestOf (VaultRemoteHTTPWallet.mk "addr" "token" "ab" [171])
        [7] ⟨1, 2, [3], ⟨4, [5]⟩, ⟨6, [8]⟩⟩] :=
  (signAttestation_body_exact_fields
    (VaultRemoteHTTPWallet.mk "addr" "token" "ab" [171])
    (fun _ => ⟨200, ""⟩) (fun _ => none) [171] [7]
    ⟨1, 2, [3], ⟨4, [5]⟩, ⟨6, [8]⟩⟩ rfl).1
